import Mathlib

/-
Verification of the CatGPT repository (src/catbot/ai.py and src/catbot/bot.py)
against its natural-language specification.

The two Python modules are shallowly embedded below.  External services
(OpenAI chat completion, transcription, image generation) are modelled as an
`Env` of oracles returning `Except Err _`; every call a `Catifier` method
issues is also recorded in a `Request` log so that theorems can speak about
the exact message lists sent upstream.  The Telegram side effects of a bot
handler (log lines, outgoing messages, inline answers) are recorded in an
`Action` trace, and the temporary audio files of the voice handler live in an
explicit file-system state `FS`.
-/

set_option autoImplicit false

namespace CatGPT

/-- Errors surfaced by the embedded code: `upstream` models an external API
call raising or returning no usable payload (including the IndexError from
indexing an empty `choices`/`data` list); `fileNotFound` models
`Path.unlink` raising on a missing file when `missing_ok` is false. -/
inductive Err
  | upstream
  | fileNotFound
deriving DecidableEq

/-- Message roles used in chat-completion requests and responses. -/
inductive Role
  | system
  | user
  | assistant
deriving DecidableEq

/-- A role-tagged chat message, as sent to or received from the completion API. -/
structure ChatMessage where
  role : Role
  content : String
deriving DecidableEq

/-- One choice of a chat-completion response (`completion.choices[i].message`). -/
structure Choice where
  message : ChatMessage
deriving DecidableEq

/-- A chat-completion response: an ordered list of choices. -/
structure ChatCompletion where
  choices : List Choice
deriving DecidableEq

/-- A transcription response; `text` models the `["text"]` field access. -/
structure TranscriptionResponse where
  text : String
deriving DecidableEq

/-- One entry of an image-generation response (`response["data"][i]`). -/
structure ImageData where
  url : String
deriving DecidableEq

/-- An image-generation response (`response["data"]`). -/
structure ImageResponse where
  data : List ImageData
deriving DecidableEq

/-- A record of one external API request issued by the `Catifier`. -/
inductive Request
  | completion (model : String) (messages : List ChatMessage)
  | transcription (model : String) (audioFile : String)
  | image (prompt : String) (n : Nat) (size : String)
deriving DecidableEq

/-- Oracles for the three external endpoints.  Each oracle yields what the
corresponding network call would produce: `Except.error` models the call
raising. -/
structure Env where
  chatCompletionsCreate : String → List ChatMessage → Except Err ChatCompletion
  transcriptionCreate : String → String → Except Err TranscriptionResponse
  imageCreate : String → Nat → String → Except Err ImageResponse

/-- The configuration dict; the keys read by the source are modelled as
fields. -/
structure Config where
  OPENAI_API_KEY : String
  GPT_MODEL : String
  BOT_TOKEN : String
deriving DecidableEq

/-- The `Catifier` object state set up by `Catifier.__init__`. -/
structure Catifier where
  model : String
  cat_config : ChatMessage

/-- Embeds `Catifier.__init__` (ai.py lines 11-25): stores the model name
from the config and the system message setting the global behavior of the
model. -/
def Catifier.init (config : Config) : Catifier :=
  { model := config.GPT_MODEL,
    cat_config :=
      { role := Role.system,
        content := "You mimick a cat and try to rephrase everything using cat-related analogies and puns" } }

/-- Embeds Python `s.split(' ', 1)` on a character list: the part before the
first space, and — when a space exists — `some` of everything after it. -/
def splitSpace1 : List Char → List Char × Option (List Char)
  | [] => ([], none)
  | c :: rest =>
    if c = ' ' then ([], some rest)
    else (c :: (splitSpace1 rest).1, (splitSpace1 rest).2)

/-- Embeds Python `message.split(' ', 1)`: a list of one part (no space in
the string) or two parts (split at the first space). -/
def pySplitSpace1 (s : String) : List String :=
  match splitSpace1 s.toList with
  | (pre, none) => [String.mk pre]
  | (pre, some post) => [String.mk pre, String.mk post]

/-- Embeds the source's `if len(message_parts) > 1: message_parts[1] else ""`
(ai.py lines 37-40). -/
def part1OrEmpty (message_parts : List String) : String :=
  match message_parts with
  | _ :: p :: _ => p
  | _ => ""

/-- Models the attribute chain `completion.choices[0].message.content`
(ai.py line 53): propagates an upstream failure, and indexing an empty
`choices` list raises. -/
def extractFirstChoice : Except Err ChatCompletion → Except Err String
  | Except.error e => Except.error e
  | Except.ok completion =>
    match completion.choices with
    | [] => Except.error Err.upstream
    | choice :: _ => Except.ok choice.message.content

/-- Embeds `Catifier.catify` (ai.py lines 27-55): drops the leading
`'/catify'` token via `split(' ', 1)`, then issues one chat-completion
request with the cat persona, the fixed instruction message, and the
remaining payload.  Returns the result together with the request log. -/
def Catifier.catify (c : Catifier) (env : Env) (message : String) :
    Except Err String × List Request :=
  let message_parts := pySplitSpace1 message
  let payload := part1OrEmpty message_parts
  let messages : List ChatMessage :=
    [c.cat_config,
     { role := Role.user, content := "Please turn the following text into a cat text." },
     { role := Role.user, content := payload }]
  (extractFirstChoice (env.chatCompletionsCreate c.model messages),
   [Request.completion c.model messages])

/-- Embeds `Catifier.reply` (ai.py lines 57-70): one chat-completion request
with the persona followed by the user message; the first choice's content is
returned verbatim. -/
def Catifier.reply (c : Catifier) (env : Env) (message : String) :
    Except Err String × List Request :=
  let messages : List ChatMessage :=
    [c.cat_config, { role := Role.user, content := message }]
  (extractFirstChoice (env.chatCompletionsCreate c.model messages),
   [Request.completion c.model messages])

/-- Embeds `Catifier.transcribe` (ai.py lines 72-81): the whisper call first;
only on its success is the extracted `["text"]` field piped through
`catify`. -/
def Catifier.transcribe (c : Catifier) (env : Env) (audio_file : String) :
    Except Err String × List Request :=
  match env.transcriptionCreate "whisper-1" audio_file with
  | Except.error e => (Except.error e, [Request.transcription "whisper-1" audio_file])
  | Except.ok resp =>
    let r := c.catify env resp.text
    (r.1, Request.transcription "whisper-1" audio_file :: r.2)

/-- Embeds `Catifier.generate_image` (ai.py lines 83-92): one image request;
`response["data"][0]["url"]` is returned, indexing an empty list raises. -/
def Catifier.generate_image (c : Catifier) (env : Env) (prompt : String) (size : String) :
    Except Err String × List Request :=
  match env.imageCreate prompt 1 size with
  | Except.error e => (Except.error e, [Request.image prompt 1 size])
  | Except.ok response =>
    match response.data with
    | [] => (Except.error Err.upstream, [Request.image prompt 1 size])
    | first :: _ => (Except.ok first.url, [Request.image prompt 1 size])

/-- A word character of the regex `\b` boundary, modelled over ASCII:
letters, digits, or underscore. -/
def isWordChar (c : Char) : Bool := c.isAlphanum || c == '_'

/-- Case-insensitive match of the literal (lowercase) pattern against a
prefix of the text, returning the remaining text on success. -/
def matchHandleCI : List Char → List Char → Option (List Char)
  | [], rest => some rest
  | _ :: _, [] => none
  | p :: ps, c :: cs => if c.toLower == p then matchHandleCI ps cs else none

/-- The regex `\b` word boundary after a handle that ends in a word
character: end of input, or a non-word character next. -/
def boundaryAfter : List Char → Bool
  | [] => true
  | c :: _ => !(isWordChar c)

/-- One anchor position of the regex search: does
`@(?:CatGPT|Jinxthecatbot)\b` with `re.IGNORECASE` match starting here? -/
def mentionAtHere (l : List Char) : Bool :=
  (match matchHandleCI "@catgpt".toList l with
   | some rest => boundaryAfter rest
   | none => false)
  || (match matchHandleCI "@jinxthecatbot".toList l with
      | some rest => boundaryAfter rest
      | none => false)

/-- The regex search over all start positions. -/
def searchMention : List Char → Bool
  | [] => false
  | c :: rest => mentionAtHere (c :: rest) || searchMention rest

/-- Embeds the mention gate of bot.py line 101:
`re.search(r"@(?:CatGPT|Jinxthecatbot)\b", message_text, re.IGNORECASE)`
is truthy. -/
def hasMention (text : String) : Bool := searchMention text.toList

/-- An incoming Telegram update, restricted to the fields the handlers read:
`username` models `update.message.from_user.username`, `chatId` models
`update.effective_chat.id`, `text` models `update.message.text`,
`voiceFileId` models `update.message.voice.file_id`, and `inlineQuery`
models `update.inline_query.query`. -/
structure Update where
  username : String
  chatId : Nat
  text : String
  voiceFileId : String
  inlineQuery : String
deriving DecidableEq

/-- An inline result as built by the inline-query handler (the
`InlineQueryResultArticle` constructor call in bot.py lines 156-162). -/
structure InlineQueryResultArticle where
  id : String
  title : String
  input_message_content : String
  description : String
  thumb_url : String
deriving DecidableEq

/-- One observable side effect of a handler: the authorization log line of
the decorator, an outgoing `send_message`, or an inline-query answer. -/
inductive Action
  | logAuth (username : String)
  | sendMessage (chatId : Nat) (text : String)
  | answerInline (results : List InlineQueryResultArticle)
deriving DecidableEq

/-- True exactly on the decorator's authorization log line. -/
def Action.isAuthLog : Action → Bool
  | Action.logAuth _ => true
  | _ => false

/-- Storage holding the temporary audio files, as the set of file names
present. -/
structure FS where
  files : List String
deriving DecidableEq

/-- Creating or overwriting a file (`download_to_drive`, the pydub
`export`). -/
def FS.write (fs : FS) (name : String) : FS :=
  { files := name :: fs.files.erase name }

/-- Embeds `Path(name).unlink(missing_ok=missing_ok)`: deleting a present
file always succeeds; deleting an absent file succeeds when `missing_ok` is
true and raises otherwise. -/
def FS.unlink (fs : FS) (name : String) (missing_ok : Bool) : Except Err FS :=
  if fs.files.contains name then Except.ok { files := fs.files.erase name }
  else if missing_ok then Except.ok fs
  else Except.error Err.fileNotFound

/-- The outcome of running one bot handler on one update: the ordered trace
of platform side effects, the external API requests issued through the
`Catifier`, the final file-system state, and whether the handler body raised. -/
structure HandlerOut where
  actions : List Action
  requests : List Request
  fs : FS
  result : Except Err Unit

/-- The `CatBot` object state set up by `CatBot.__init__` (bot.py lines
24-31). -/
structure CatBot where
  config : Config
  catifier : Catifier

/-- Embeds the `check_authorized_user` decorator (bot.py lines 51-64): it
logs the originating user's name, then unconditionally calls through to the
wrapped handler — it never rejects. -/
def check_authorized_user (func : CatBot → Env → FS → Update → HandlerOut) :
    CatBot → Env → FS → Update → HandlerOut :=
  fun self env fs update =>
    let user_name := update.username
    let inner := func self env fs update
    { inner with actions := Action.logAuth user_name :: inner.actions }

/-- The body of `CatBot.reply` (bot.py lines 90-105): drop the update unless
the message text mentions one of the bot handles, otherwise forward the full
text to `Catifier.reply` and send the response. -/
def CatBot.reply_body (bot : CatBot) (env : Env) (fs : FS) (update : Update) :
    HandlerOut :=
  let message_text := update.text
  if hasMention message_text then
    match bot.catifier.reply env message_text with
    | (Except.error e, reqs) => { actions := [], requests := reqs, fs := fs, result := Except.error e }
    | (Except.ok response, reqs) =>
      { actions := [Action.sendMessage update.chatId response],
        requests := reqs, fs := fs, result := Except.ok () }
  else { actions := [], requests := [], fs := fs, result := Except.ok () }

/-- The decorated `CatBot.reply` handler, as registered for non-command text
messages. -/
def CatBot.reply : CatBot → Env → FS → Update → HandlerOut :=
  check_authorized_user CatBot.reply_body

/-- The body of `CatBot.catify` (bot.py lines 107-117): the raw message text
(command token included) is handed to `Catifier.catify`, and the response
sent back. -/
def CatBot.catify_body (bot : CatBot) (env : Env) (fs : FS) (update : Update) :
    HandlerOut :=
  let message_text := update.text
  match bot.catifier.catify env message_text with
  | (Except.error e, reqs) => { actions := [], requests := reqs, fs := fs, result := Except.error e }
  | (Except.ok response, reqs) =>
    { actions := [Action.sendMessage update.chatId response],
      requests := reqs, fs := fs, result := Except.ok () }

/-- The decorated `CatBot.catify` handler, as registered for the `/catify`
command. -/
def CatBot.catify : CatBot → Env → FS → Update → HandlerOut :=
  check_authorized_user CatBot.catify_body

/-- The body of `CatBot.voice_handler` (bot.py lines 119-142): download the
voice file, transcode it to mp3, transcribe-and-catify, send the result, and
only then delete the two temporary files.  The two `unlink` calls sit after
the `transcribe`/`send_message` awaits — an exception there propagates
before any cleanup runs. -/
def CatBot.voice_handler_body (bot : CatBot) (env : Env) (fs : FS) (update : Update) :
    HandlerOut :=
  let file_id := update.voiceFileId
  let file_ogg := file_id ++ ".ogg"
  let file_mp3 := file_id ++ ".mp3"
  let fs1 := fs.write file_ogg
  let fs2 := fs1.write file_mp3
  match bot.catifier.transcribe env file_mp3 with
  | (Except.error e, reqs) => { actions := [], requests := reqs, fs := fs2, result := Except.error e }
  | (Except.ok message, reqs) =>
    let acts := [Action.sendMessage update.chatId message]
    match fs2.unlink file_ogg true with
    | Except.error e => { actions := acts, requests := reqs, fs := fs2, result := Except.error e }
    | Except.ok fs3 =>
      match fs3.unlink file_mp3 true with
      | Except.error e => { actions := acts, requests := reqs, fs := fs3, result := Except.error e }
      | Except.ok fs4 => { actions := acts, requests := reqs, fs := fs4, result := Except.ok () }

/-- The decorated `CatBot.voice_handler`, as registered for voice and audio
messages. -/
def CatBot.voice_handler : CatBot → Env → FS → Update → HandlerOut :=
  check_authorized_user CatBot.voice_handler_body

/-- Embeds `CatBot.inline_query` (bot.py lines 144-164, not decorated): an
empty query returns early with no answer; otherwise exactly one article
echoing the query is answered. -/
def CatBot.inline_query (bot : CatBot) (env : Env) (fs : FS) (update : Update) :
    HandlerOut :=
  let query := update.inlineQuery
  if query = "" then { actions := [], requests := [], fs := fs, result := Except.ok () }
  else
    let results : List InlineQueryResultArticle :=
      [{ id := query,
         title := "Ask CatGPT",
         input_message_content := query,
         description := query,
         thumb_url := "https://user-images.githubusercontent.com/13839523/227260331-764d699a-e99f-4920-9b03-6b2bae6e0fda.png" }]
    { actions := [Action.answerInline results], requests := [], fs := fs, result := Except.ok () }

/-- Embeds `CatBot.generate_image` (bot.py lines 166-179).  Note that in the
source this method carries no `check_authorized_user` decorator: this
definition is the registered handler itself. -/
def CatBot.generate_image (bot : CatBot) (env : Env) (fs : FS) (update : Update) :
    HandlerOut :=
  let IMAGE_SIZE := "512x512"
  let prompt := update.text
  match bot.catifier.generate_image env prompt IMAGE_SIZE with
  | (Except.error e, reqs) => { actions := [], requests := reqs, fs := fs, result := Except.error e }
  | (Except.ok image_url, reqs) =>
    { actions := [Action.sendMessage update.chatId ("Look at this image: " ++ image_url)],
      requests := reqs, fs := fs, result := Except.ok () }

/-! ## Named constants and specification-side definitions -/

/-- The fixed persona system message built in `Catifier.__init__`. -/
def personaMessage : ChatMessage :=
  { role := Role.system,
    content := "You mimick a cat and try to rephrase everything using cat-related analogies and puns" }

/-- The fixed instruction message of `Catifier.catify`. -/
def catifyPrompt : ChatMessage :=
  { role := Role.user, content := "Please turn the following text into a cat text." }

/-- The part of a string strictly after its first space character, and the
empty string when it has no space.  This is the direct description of what
the `split(' ', 1)` logic of `Catifier.catify` keeps as the payload. -/
def afterFirstSpace (s : String) : String :=
  String.mk ((s.toList.dropWhile (fun c => !(c == ' '))).drop 1)

/-- Modelled from the spec: the claimed payload of the `/catify` command —
"the raw message text with the leading command token and its trailing
whitespace removed", read as dropping the leading run of non-whitespace and
then every whitespace character that follows it. -/
def stripCommandToken (s : String) : String :=
  String.mk ((s.toList.dropWhile (fun c => !c.isWhitespace)).dropWhile Char.isWhitespace)

/-! ## Concrete fixtures used by witnesses and counterexamples -/

/-- A concrete configuration. -/
def cfg0 : Config :=
  { OPENAI_API_KEY := "k", GPT_MODEL := "m", BOT_TOKEN := "t" }

/-- A concrete bot over `cfg0`. -/
def bot0 : CatBot :=
  { config := cfg0, catifier := Catifier.init cfg0 }

/-- An environment in which every external call succeeds. -/
def envOk : Env :=
  { chatCompletionsCreate := fun _ _ =>
      Except.ok { choices := [{ message := { role := Role.assistant, content := "meow meow" } }] },
    transcriptionCreate := fun _ _ =>
      Except.ok { text := "hello there friend" },
    imageCreate := fun _ _ _ =>
      Except.ok { data := [{ url := "http://img" }] } }

/-- An environment in which the transcription call raises. -/
def envTranscribeFail : Env :=
  { envOk with transcriptionCreate := fun _ _ => Except.error Err.upstream }

/-- An environment whose transcription call yields a one-word transcript. -/
def envOneWordVoice : Env :=
  { envOk with transcriptionCreate := fun _ _ => Except.ok { text := "meow" } }

/-- The empty storage. -/
def fs0 : FS := { files := [] }

/-- A concrete voice update. -/
def uVoice : Update :=
  { username := "alice", chatId := 5, text := "", voiceFileId := "v1", inlineQuery := "" }

/-- A concrete `/image` command update. -/
def uImage : Update :=
  { username := "alice", chatId := 5, text := "/image a cat", voiceFileId := "", inlineQuery := "" }

/-- A concrete `/catify` command update whose text has two spaces after the
command token. -/
def uCatifyWs : Update :=
  { username := "alice", chatId := 5, text := "/catify  hi", voiceFileId := "", inlineQuery := "" }

/-- A concrete text update mentioning a bot handle. -/
def uMention : Update :=
  { username := "alice", chatId := 5, text := "hey @Jinxthecatbot how are you",
    voiceFileId := "", inlineQuery := "" }

/-- A concrete text update with no mention. -/
def uPlain : Update :=
  { username := "alice", chatId := 5, text := "hey there", voiceFileId := "", inlineQuery := "" }

/-- A concrete inline-query update with query `purr`. -/
def uInline : Update :=
  { username := "alice", chatId := 5, text := "", voiceFileId := "", inlineQuery := "purr" }

/-- A concrete inline-query update with an empty query. -/
def uInlineEmpty : Update :=
  { username := "alice", chatId := 5, text := "", voiceFileId := "", inlineQuery := "" }

/-! ## Helper lemmas -/

/-- The second component of the `split(' ', 1)` model is everything strictly
after the first space. -/
theorem splitSpace1_post (l : List Char) :
    ((splitSpace1 l).2.getD []) = ((l.dropWhile (fun c => !(c == ' '))).drop 1) := by
  induction l with
  | nil => rfl
  | cons c rest ih =>
    by_cases h : c = ' '
    · subst h
      simp [splitSpace1, List.dropWhile]
    · have hb : (c == ' ') = false := by
        simpa using h
      simp only [splitSpace1]
      rw [if_neg h]
      simp only [List.dropWhile_cons, hb, Bool.not_false, if_true]
      exact ih

/-- The payload kept by the source's split logic is exactly
`afterFirstSpace`. -/
theorem part1OrEmpty_pySplitSpace1 (s : String) :
    part1OrEmpty (pySplitSpace1 s) = afterFirstSpace s := by
  have h := splitSpace1_post s.toList
  unfold pySplitSpace1 afterFirstSpace
  rcases hs : splitSpace1 s.toList with ⟨pre, post⟩
  rw [hs] at h
  cases post with
  | none =>
    rw [← h]
    rfl
  | some p =>
    rw [← h]
    rfl

/-- Full characterization of `Catifier.catify`: one completion request whose
payload message carries `afterFirstSpace` of the input. -/
theorem catify_eq (c : Catifier) (env : Env) (m : String) :
    c.catify env m =
      (extractFirstChoice (env.chatCompletionsCreate c.model
        [c.cat_config, catifyPrompt, { role := Role.user, content := afterFirstSpace m }]),
       [Request.completion c.model
        [c.cat_config, catifyPrompt, { role := Role.user, content := afterFirstSpace m }]]) := by
  show (extractFirstChoice (env.chatCompletionsCreate c.model
          [c.cat_config, catifyPrompt,
           { role := Role.user, content := part1OrEmpty (pySplitSpace1 m) }]),
        [Request.completion c.model
          [c.cat_config, catifyPrompt,
           { role := Role.user, content := part1OrEmpty (pySplitSpace1 m) }]]) = _
  rw [part1OrEmpty_pySplitSpace1]

/-- A string without a space loses everything: its `afterFirstSpace` is
empty. -/
theorem afterFirstSpace_of_no_space (m : String) (h : ' ' ∉ m.toList) :
    afterFirstSpace m = "" := by
  unfold afterFirstSpace
  have hall : List.dropWhile (fun c => !(c == ' ')) m.toList = [] := by
    rw [List.dropWhile_eq_nil_iff]
    intro x hx
    have hxne : x ≠ ' ' := fun he => h (he ▸ hx)
    simpa using hxne
  rw [hall]
  rfl

/-- The decorator wraps a handler by logging the user name first and calling
straight through: everything but the prepended log line is unchanged. -/
theorem check_authorized_user_spec (func : CatBot → Env → FS → Update → HandlerOut)
    (bot : CatBot) (env : Env) (fs : FS) (u : Update) :
    check_authorized_user func bot env fs u
      = { func bot env fs u with
          actions := Action.logAuth u.username :: (func bot env fs u).actions } := rfl

/-- The catify handler body always issues exactly the requests of
`Catifier.catify` on the raw update text. -/
theorem catify_body_requests (bot : CatBot) (env : Env) (fs : FS) (u : Update) :
    (CatBot.catify_body bot env fs u).requests = (bot.catifier.catify env u.text).2 := by
  simp only [CatBot.catify_body]
  rcases h : bot.catifier.catify env u.text with ⟨r, reqs⟩
  cases r <;> rfl

/-! ## Claim theorems -/

/-- Claim C1 (code bug): the claim says both temporary audio files are
absent from storage after `voice_handler` finishes on every outcome.  The
code deletes them only on the success path: at the failing input — a voice
update whose transcription call raises — both `v1.ogg` and `v1.mp3` remain
on storage, because the two `unlink` calls sit after the `transcribe` await
rather than in a `finally` block.  On success both files are deleted, and an
`unlink` with `missing_ok` on an absent file does not raise, as the claim
states. -/
theorem voice_files_remain_on_transcription_failure :
    ((CatBot.voice_handler bot0 envTranscribeFail fs0 uVoice).fs.files.contains "v1.ogg" = true)
  ∧ ((CatBot.voice_handler bot0 envTranscribeFail fs0 uVoice).fs.files.contains "v1.mp3" = true)
  ∧ ((CatBot.voice_handler bot0 envTranscribeFail fs0 uVoice).result = Except.error Err.upstream)
  ∧ ((CatBot.voice_handler bot0 envOk fs0 uVoice).fs.files = [])
  ∧ ((CatBot.voice_handler bot0 envOk fs0 uVoice).result = Except.ok ())
  ∧ (fs0.unlink "v1.ogg" true = Except.ok fs0) :=
  ⟨rfl, rfl, rfl, rfl, rfl, rfl⟩

/-- Claim C2, counterexample: at the input `"hello world"`, the third entry
of the completion request issued by `catify` has content `"world"`, not the
input itself — the claim that the third message content is `t` fails. -/
theorem catify_payload_differs_from_input :
    (((Catifier.init cfg0).catify envOk "hello world").2
       = [Request.completion "m"
           [personaMessage, catifyPrompt, { role := Role.user, content := "world" }]])
  ∧ (("world" : String) ≠ "hello world") :=
  ⟨rfl, by decide⟩

/-- Claim C2 as amended: for every text input `t`, `catify t` issues exactly
one completion request whose message list has exactly 3 entries in order —
the fixed persona system message, the fixed instruction user message, and a
user message whose content is the part of `t` strictly after its first
space (the empty string when `t` has no space). -/
theorem catify_request_shape (config : Config) (env : Env) (t : String) :
    ((Catifier.init config).catify env t).2
      = [Request.completion config.GPT_MODEL
          [personaMessage, catifyPrompt,
           { role := Role.user, content := afterFirstSpace t }]] := by
  rw [catify_eq]
  rfl

/-- Claim C3, counterexample: for the command text `"/catify  hi"` (two
spaces after the token) the payload user message forwarded to the completion
API is `" hi"`, while the claim — raw text with the leading command token
and its trailing whitespace removed — demands `"hi"`. -/
theorem catify_command_extra_whitespace :
    ((CatBot.catify bot0 envOk fs0 uCatifyWs).requests
       = [Request.completion "m"
           [personaMessage, catifyPrompt, { role := Role.user, content := " hi" }]])
  ∧ (stripCommandToken "/catify  hi" = "hi")
  ∧ ((" hi" : String) ≠ "hi") :=
  ⟨rfl, rfl, by decide⟩

/-- Claim C3 as amended: the payload the `/catify` flow forwards to the
completion API is the raw message text after its first space — exactly one
separator is removed, further whitespace is kept — and the empty string for
a bare `/catify`; in particular `/catify hello world` forwards
`"hello world"` and `/catify` alone forwards `""`. -/
theorem catify_handler_payload_after_first_space
    (bot : CatBot) (env : Env) (fs : FS) (u : Update) :
    ((CatBot.catify bot env fs u).requests
       = [Request.completion bot.catifier.model
           [bot.catifier.cat_config, catifyPrompt,
            { role := Role.user, content := afterFirstSpace u.text }]])
  ∧ (afterFirstSpace "/catify hello world" = "hello world")
  ∧ (afterFirstSpace "/catify" = "") := by
  refine ⟨?_, rfl, rfl⟩
  show (check_authorized_user CatBot.catify_body bot env fs u).requests = _
  rw [check_authorized_user_spec, catify_body_requests, catify_eq]

/-- Claim C4: `transcribe` extracts the `text` field of the speech-to-text
response and returns the catification of that full transcript; if the
transcription call fails, no catify call is attempted (the only request
issued is the transcription request) and `transcribe` fails with the same
error. -/
theorem transcribe_sequencing (config : Config) (env : Env) (audio : String)
    (e : Err) (resp : TranscriptionResponse) :
    (env.transcriptionCreate "whisper-1" audio = Except.error e →
       (Catifier.init config).transcribe env audio
         = (Except.error e, [Request.transcription "whisper-1" audio]))
  ∧ (env.transcriptionCreate "whisper-1" audio = Except.ok resp →
       (Catifier.init config).transcribe env audio
         = (((Catifier.init config).catify env resp.text).1,
            Request.transcription "whisper-1" audio
              :: ((Catifier.init config).catify env resp.text).2)) := by
  constructor
  · intro h
    unfold Catifier.transcribe
    rw [h]
  · intro h
    unfold Catifier.transcribe
    rw [h]

/-- Witness for C4: in a concrete environment whose transcription call
raises, `transcribe` fails and issues no completion request; in a concrete
environment where it succeeds, the transcript is piped through `catify`. -/
theorem transcribe_sequencing_witness :
    ((Catifier.init cfg0).transcribe envTranscribeFail "a.mp3"
       = (Except.error Err.upstream, [Request.transcription "whisper-1" "a.mp3"]))
  ∧ ((Catifier.init cfg0).transcribe envOk "a.mp3"
       = (((Catifier.init cfg0).catify envOk "hello there friend").1,
          Request.transcription "whisper-1" "a.mp3"
            :: ((Catifier.init cfg0).catify envOk "hello there friend").2)) := by
  constructor
  · exact (transcribe_sequencing cfg0 envTranscribeFail "a.mp3" Err.upstream
      { text := "" }).1 rfl
  · exact (transcribe_sequencing cfg0 envOk "a.mp3" Err.upstream
      { text := "hello there friend" }).2 rfl

/-- Claim C5, counterexample: the `/image` handler is not decorated with
`check_authorized_user` in the source, so a concrete `/image` update runs
the handler body (a message is sent) without any authorization log line —
the claim that `onImageCommand` applies the gate fails. -/
theorem generate_image_never_logs_user :
    ((CatBot.generate_image bot0 envOk fs0 uImage).actions
       = [Action.sendMessage 5 "Look at this image: http://img"])
  ∧ ((CatBot.generate_image bot0 envOk fs0 uImage).actions.filter Action.isAuthLog = []) :=
  ⟨rfl, rfl⟩

/-- Claim C5 as amended: the text, catify and voice handlers are gated — on
every update the gate logs the originating user's display name first and
then runs the handler body unchanged (it never rejects) — while the image
handler is not gated and produces no authorization log line. -/
theorem gated_handlers_log_username (bot : CatBot) (env : Env) (fs : FS) (u : Update) :
    (CatBot.reply bot env fs u
       = { CatBot.reply_body bot env fs u with
           actions := Action.logAuth u.username :: (CatBot.reply_body bot env fs u).actions })
  ∧ (CatBot.catify bot env fs u
       = { CatBot.catify_body bot env fs u with
           actions := Action.logAuth u.username :: (CatBot.catify_body bot env fs u).actions })
  ∧ (CatBot.voice_handler bot env fs u
       = { CatBot.voice_handler_body bot env fs u with
           actions := Action.logAuth u.username
             :: (CatBot.voice_handler_body bot env fs u).actions })
  ∧ ((CatBot.generate_image bot env fs u).actions.filter Action.isAuthLog = []) := by
  refine ⟨rfl, rfl, rfl, ?_⟩
  simp only [CatBot.generate_image]
  rcases h : bot.catifier.generate_image env u.text "512x512" with ⟨r, reqs⟩
  cases r <;> rfl

/-- Claim C6: a non-command text update is forwarded — in full — to
`Catifier.reply` and the response sent back exactly when the text contains a
case-insensitive whole-word @-mention of one of the recognized bot handles;
otherwise the update is dropped with no outbound message, no request and no
error. -/
theorem reply_handler_mention_gate (bot : CatBot) (env : Env) (fs : FS) (u : Update)
    (r : String) :
    (hasMention u.text = false →
       CatBot.reply bot env fs u
         = { actions := [Action.logAuth u.username], requests := [], fs := fs,
             result := Except.ok () })
  ∧ (hasMention u.text = true →
       (bot.catifier.reply env u.text).1 = Except.ok r →
       CatBot.reply bot env fs u
         = { actions := [Action.logAuth u.username, Action.sendMessage u.chatId r],
             requests := [Request.completion bot.catifier.model
               [bot.catifier.cat_config, { role := Role.user, content := u.text }]],
             fs := fs, result := Except.ok () }) := by
  constructor
  · intro h
    show check_authorized_user CatBot.reply_body bot env fs u = _
    rw [check_authorized_user_spec]
    simp [CatBot.reply_body, h]
  · intro h hr
    show check_authorized_user CatBot.reply_body bot env fs u = _
    rw [check_authorized_user_spec]
    have hr2 : bot.catifier.reply env u.text
        = (Except.ok r,
           [Request.completion bot.catifier.model
             [bot.catifier.cat_config, { role := Role.user, content := u.text }]]) := by
      rw [← hr]
      rfl
    simp [CatBot.reply_body, h, hr2]

/-- Witness for C6: the plain text `"hey there"` is silently dropped, while
`"hey @Jinxthecatbot how are you"` is forwarded whole and the completion
response sent back. -/
theorem reply_handler_mention_gate_witness :
    (CatBot.reply bot0 envOk fs0 uPlain
       = { actions := [Action.logAuth "alice"], requests := [], fs := fs0,
           result := Except.ok () })
  ∧ (CatBot.reply bot0 envOk fs0 uMention
       = { actions := [Action.logAuth "alice", Action.sendMessage 5 "meow meow"],
           requests := [Request.completion "m"
             [personaMessage,
              { role := Role.user, content := "hey @Jinxthecatbot how are you" }]],
           fs := fs0, result := Except.ok () }) := by
  constructor
  · exact (reply_handler_mention_gate bot0 envOk fs0 uPlain "x").1 rfl
  · exact (reply_handler_mention_gate bot0 envOk fs0 uMention "meow meow").2 rfl rfl

/-- Claim C7: for every text input `t`, `reply t` issues exactly one
completion request whose message list has exactly 2 entries in order — the
fixed persona system message, then a user message with content `t` — and
returns the first choice's content verbatim. -/
theorem reply_request_shape (config : Config) (env : Env) (t : String)
    (choice : Choice) (rest : List Choice) :
    (((Catifier.init config).reply env t).2
       = [Request.completion config.GPT_MODEL
           [personaMessage, { role := Role.user, content := t }]])
  ∧ (env.chatCompletionsCreate config.GPT_MODEL
        [personaMessage, { role := Role.user, content := t }]
       = Except.ok { choices := choice :: rest } →
     ((Catifier.init config).reply env t).1 = Except.ok choice.message.content) := by
  constructor
  · rfl
  · intro h
    show extractFirstChoice (env.chatCompletionsCreate (Catifier.init config).model
        [(Catifier.init config).cat_config, { role := Role.user, content := t }]) = _
    rw [show env.chatCompletionsCreate (Catifier.init config).model
        [(Catifier.init config).cat_config, { role := Role.user, content := t }]
        = Except.ok { choices := choice :: rest } from h]
    rfl

/-- Witness for C7: a concrete `reply` call issues the two-message request
and returns the environment's first choice verbatim. -/
theorem reply_request_shape_witness :
    (((Catifier.init cfg0).reply envOk "hi").2
       = [Request.completion "m" [personaMessage, { role := Role.user, content := "hi" }]])
  ∧ (((Catifier.init cfg0).reply envOk "hi").1 = Except.ok "meow meow") := by
  constructor
  · exact (reply_request_shape cfg0 envOk "hi"
      { message := { role := Role.assistant, content := "meow meow" } } []).1
  · exact (reply_request_shape cfg0 envOk "hi"
      { message := { role := Role.assistant, content := "meow meow" } } []).2 rfl

/-- Claim C8: an inline query with an empty string produces no result set;
a non-empty query is answered with exactly one result whose identifier and
body echo the query text verbatim, with the fixed title and the fixed
preview thumbnail URL. -/
theorem inline_query_results (bot : CatBot) (env : Env) (fs : FS) (u : Update) :
    (u.inlineQuery = "" →
       CatBot.inline_query bot env fs u
         = { actions := [], requests := [], fs := fs, result := Except.ok () })
  ∧ (u.inlineQuery ≠ "" →
       CatBot.inline_query bot env fs u
         = { actions := [Action.answerInline
               [{ id := u.inlineQuery,
                  title := "Ask CatGPT",
                  input_message_content := u.inlineQuery,
                  description := u.inlineQuery,
                  thumb_url := "https://user-images.githubusercontent.com/13839523/227260331-764d699a-e99f-4920-9b03-6b2bae6e0fda.png" }]],
             requests := [], fs := fs, result := Except.ok () }) := by
  constructor
  · intro h
    simp [CatBot.inline_query, h]
  · intro h
    simp [CatBot.inline_query, h]

/-- Witness for C8: the empty inline query answers nothing, and the query
`"purr"` is answered with exactly one result with id `"purr"` and body
`"purr"`. -/
theorem inline_query_results_witness :
    (CatBot.inline_query bot0 envOk fs0 uInlineEmpty
       = { actions := [], requests := [], fs := fs0, result := Except.ok () })
  ∧ (CatBot.inline_query bot0 envOk fs0 uInline
       = { actions := [Action.answerInline
             [{ id := "purr",
                title := "Ask CatGPT",
                input_message_content := "purr",
                description := "purr",
                thumb_url := "https://user-images.githubusercontent.com/13839523/227260331-764d699a-e99f-4920-9b03-6b2bae6e0fda.png" }]],
           requests := [], fs := fs0, result := Except.ok () }) := by
  constructor
  · exact (inline_query_results bot0 envOk fs0 uInlineEmpty).1 rfl
  · exact (inline_query_results bot0 envOk fs0 uInline).2 (by decide)

/-- Claim C9: the `cat_config` built at construction is the fixed persona
system message, and every completion request issued by `reply`, `catify`, or
`catify` as reached through `transcribe` has it as the first entry of its
message list. -/
theorem completion_requests_start_with_persona (config : Config) (env : Env)
    (m audio md : String) (msgs : List ChatMessage) :
    ((Catifier.init config).cat_config = personaMessage)
  ∧ (Request.completion md msgs ∈ ((Catifier.init config).reply env m).2 →
       msgs.head? = some personaMessage)
  ∧ (Request.completion md msgs ∈ ((Catifier.init config).catify env m).2 →
       msgs.head? = some personaMessage)
  ∧ (Request.completion md msgs ∈ ((Catifier.init config).transcribe env audio).2 →
       msgs.head? = some personaMessage) := by
  refine ⟨rfl, ?_, ?_, ?_⟩
  · intro hm
    have hm2 : Request.completion md msgs
        ∈ [Request.completion config.GPT_MODEL
            [personaMessage, { role := Role.user, content := m }]] := hm
    have he := List.mem_singleton.mp hm2
    injection he with h1 h2
    rw [h2]
    rfl
  · intro hm
    have hm2 : Request.completion md msgs
        ∈ [Request.completion config.GPT_MODEL
            [personaMessage, catifyPrompt,
             { role := Role.user, content := part1OrEmpty (pySplitSpace1 m) }]] := hm
    have he := List.mem_singleton.mp hm2
    injection he with h1 h2
    rw [h2]
    rfl
  · intro hm
    cases ht : env.transcriptionCreate "whisper-1" audio with
    | error e =>
      have hm2 : Request.completion md msgs
          ∈ [Request.transcription "whisper-1" audio] := by
        unfold Catifier.transcribe at hm
        rw [ht] at hm
        exact hm
      have he := List.mem_singleton.mp hm2
      cases he
    | ok resp =>
      have hm2 : Request.completion md msgs
          ∈ Request.transcription "whisper-1" audio
            :: ((Catifier.init config).catify env resp.text).2 := by
        unfold Catifier.transcribe at hm
        rw [ht] at hm
        exact hm
      rcases List.mem_cons.mp hm2 with he | hc
      · cases he
      · have hm3 : Request.completion md msgs
            ∈ [Request.completion config.GPT_MODEL
                [personaMessage, catifyPrompt,
                 { role := Role.user,
                   content := part1OrEmpty (pySplitSpace1 resp.text) }]] := hc
        have he2 := List.mem_singleton.mp hm3
        injection he2 with h1 h2
        rw [h2]
        rfl

/-- Witness for C9: the concrete `reply` request of `bot0` has the persona
message first. -/
theorem completion_requests_start_with_persona_witness :
    ((Catifier.init cfg0).cat_config = personaMessage)
  ∧ (([personaMessage, { role := Role.user, content := "hi" }] : List ChatMessage).head?
       = some personaMessage) := by
  have h := completion_requests_start_with_persona cfg0 envOk "hi" "a.mp3" "m"
    [personaMessage, { role := Role.user, content := "hi" }]
  exact ⟨h.1, h.2.1 (by decide)⟩

/-- Claim C10 (implicit behavior of the source): for every input string `m`,
`catify` sends as payload the part of `m` strictly after its first space —
regardless of whether `m` begins with a command token — the empty string
when `m` has no space; a transcript piped through `transcribe` reaches the
completion request with its first word lost. -/
theorem catify_drops_first_word (config : Config) (env : Env) (m audio : String)
    (resp : TranscriptionResponse) :
    (((Catifier.init config).catify env m).2
       = [Request.completion config.GPT_MODEL
           [personaMessage, catifyPrompt,
            { role := Role.user, content := afterFirstSpace m }]])
  ∧ (' ' ∉ m.toList →
       ((Catifier.init config).catify env m).2
         = [Request.completion config.GPT_MODEL
             [personaMessage, catifyPrompt, { role := Role.user, content := "" }]])
  ∧ (env.transcriptionCreate "whisper-1" audio = Except.ok resp →
       ((Catifier.init config).transcribe env audio).2
         = [Request.transcription "whisper-1" audio,
            Request.completion config.GPT_MODEL
              [personaMessage, catifyPrompt,
               { role := Role.user, content := afterFirstSpace resp.text }]]) := by
  refine ⟨?_, ?_, ?_⟩
  · rw [catify_eq]
    rfl
  · intro h
    rw [catify_eq, afterFirstSpace_of_no_space m h]
    rfl
  · intro h
    unfold Catifier.transcribe
    rw [h]
    show Request.transcription "whisper-1" audio
        :: ((Catifier.init config).catify env resp.text).2 = _
    rw [catify_eq]
    rfl

/-- Witness for C10: the one-word input `"meow"` is sent as an empty
payload, and a one-word voice transcript reaches the completion request with
its only word lost. -/
theorem catify_drops_first_word_witness :
    (((Catifier.init cfg0).catify envOk "meow").2
       = [Request.completion "m"
           [personaMessage, catifyPrompt, { role := Role.user, content := "" }]])
  ∧ (((Catifier.init cfg0).transcribe envOneWordVoice "a.mp3").2
       = [Request.transcription "whisper-1" "a.mp3",
          Request.completion "m"
            [personaMessage, catifyPrompt, { role := Role.user, content := "" }]]) := by
  have h1 := catify_drops_first_word cfg0 envOk "meow" "a.mp3" { text := "meow" }
  have h2 := catify_drops_first_word cfg0 envOneWordVoice "meow" "a.mp3" { text := "meow" }
  exact ⟨h1.2.1 (by decide), h2.2.2 rfl⟩

end CatGPT
